import Mathlib

/-!
# Verification of the workspace-manager merge/generate logic

Shallow embedding of `src/lib.rs` and `src/main.rs` of the
`timhughes/workspace-manager` repository.  Filesystem paths are modelled
componentwise (a Rust `Path` after `components()` normalisation), OS strings
either hold valid UTF-8 or an opaque byte list, and the environment reads
(`env::current_dir`, `env::current_exe`, `fs::read_dir`, the state of the
target `.code-workspace` file) are explicit inputs.  Fallible Rust functions
returning `anyhow::Result` become `Except String`.
-/

namespace WorkspaceManager

/-- An `OsStr`: either valid UTF-8 or an opaque non-UTF-8 byte sequence. -/
inductive OsStr where
  | utf8 (s : String)
  | nonUtf8 (bytes : List Nat)
deriving DecidableEq, Repr

/-- Rust `OsStr::to_str`: `some` exactly on valid UTF-8. -/
def OsStr.to_str : OsStr → Option String
  | .utf8 s => some s
  | .nonUtf8 _ => none

/-- Rust `OsStr::to_string_lossy`; non-UTF-8 bytes are replaced (we keep a
single replacement character, which is all the claims need of the lossy
case). -/
def OsStr.to_string_lossy : OsStr → String
  | .utf8 s => s
  | .nonUtf8 _ => "�"

/-- One normalised `std::path::Component` (`RootDir` is carried by the
`absolute` flag of `FsPath` instead of being a list element). -/
inductive Component where
  | normal (name : OsStr)
  | parentDir
  | curDir
deriving DecidableEq, Repr

/-- A path, as its normalised component list plus an absolute-path flag. -/
structure FsPath where
  absolute : Bool
  components : List Component
deriving DecidableEq, Repr

/-- Rust `Path::file_name`: the last component when it is a normal name. -/
def FsPath.file_name (p : FsPath) : Option OsStr :=
  match p.components.getLast? with
  | some (.normal n) => some n
  | _ => none

/-- Rendering of one component, as `Path` displays it. -/
def Component.render : Component → String
  | .normal n => n.to_string_lossy
  | .parentDir => ".."
  | .curDir => "."

/-- Rust `Path::to_string_lossy`: components joined by `/`. -/
def FsPath.to_string_lossy (p : FsPath) : String :=
  (if p.absolute then "/" else "") ++
    String.intercalate "/" (p.components.map Component.render)

/-- Appending one normal component (`entry.path()` for a directory entry). -/
def FsPath.join_name (base : FsPath) (n : OsStr) : FsPath :=
  ⟨base.absolute, base.components ++ [Component.normal n]⟩

/-- Rust `Path::strip_prefix`, componentwise. -/
def FsPath.stripPrefixComps (p base : FsPath) : Option FsPath :=
  if base.absolute = p.absolute ∧ base.components.isPrefixOf p.components then
    some ⟨false, p.components.drop base.components.length⟩
  else none

/-- Rust `str::starts_with` with a `char` pattern: the first character of
the string equals the given character. -/
def starts_with_char (s : String) (c : Char) : Bool :=
  match s.data with
  | [] => false
  | a :: _ => a == c

/-- Function `is_hidden` from `src/lib.rs` lines 72-77 (identical in
`src/main.rs`): final name component, as UTF-8, starts with the character
`.`; `false` on any failure. -/
def is_hidden (path : FsPath) : Bool :=
  (((path.file_name.bind OsStr.to_str).map
      (fun name => starts_with_char name '.')).getD false)

/-- One entry of `fs::read_dir`: its final name and whether it is a
directory. -/
structure DirEntry where
  name : OsStr
  is_dir : Bool
deriving DecidableEq, Repr

/-- Function `scan_directories` from `src/lib.rs` lines 79-89: keep the
entries that are directories and not hidden, in listing order.  The
directory listing of `base_path` is the explicit input `listing`. -/
def scan_directories (base_path : FsPath) (listing : List DirEntry) :
    List FsPath :=
  (listing.filter
      (fun entry => entry.is_dir &&
        !(is_hidden (FsPath.join_name base_path entry.name)))).map
    (fun entry => FsPath.join_name base_path entry.name)

/-- The componentwise loop of the external `pathdiff::diff_paths` crate
function called by `create_workspace_folder` in `src/lib.rs`, transcribed
(the accumulator `comps`, then the component iterator pair). -/
def diff_loop : (comps ita itb : List Component) → Option (List Component)
  | comps, [], [] => some comps
  | comps, a :: rest, [] => some (comps ++ a :: rest)
  | comps, [], _ :: itb => diff_loop (comps ++ [Component.parentDir]) [] itb
  | comps, a :: ita, b :: itb =>
    if comps = [] ∧ a = b then diff_loop comps ita itb
    else if b = Component.curDir then diff_loop (comps ++ [a]) ita itb
    else if b = Component.parentDir then none
    else some (comps ++ [Component.parentDir] ++
      itb.map (fun _ => Component.parentDir) ++ a :: ita)

/-- Function `pathdiff::diff_paths path base`. -/
def diff_paths (path base : FsPath) : Option FsPath :=
  if path.absolute ≠ base.absolute then
    if path.absolute then some path else none
  else
    (diff_loop [] path.components base.components).map
      (fun comps => ⟨false, comps⟩)

/-- The folder emblem exactly as it appears (double-encoded) in
`src/lib.rs` line 111. -/
def folder_emblem : String := "ðŸ“¦ "

/-- The current-directory emblem exactly as it appears (double-encoded) in
`src/lib.rs` line 202. -/
def current_emblem : String := "ðŸ—ï¸ "

/-- One workspace folder entry. -/
structure WorkspaceFolder where
  path : String
  name : String
deriving DecidableEq, Repr

/-- Function `create_workspace_folder` from `src/lib.rs` lines 91-113. -/
def create_workspace_folder (path base_path scan_path : FsPath) :
    Except String WorkspaceFolder :=
  match path.file_name with
  | none => Except.error "Invalid folder name"
  | some n =>
    let name := n.to_string_lossy
    let rel : Except String String :=
      if path = scan_path then
        Except.ok (FsPath.to_string_lossy
          ((FsPath.stripPrefixComps scan_path base_path).getD
            ⟨false, [Component.curDir]⟩))
      else
        match diff_paths path base_path with
        | some p => Except.ok p.to_string_lossy
        | none => Except.error "Failed to calculate relative path"
    match rel with
    | Except.error e => Except.error e
    | Except.ok relative_path =>
      Except.ok { path := relative_path, name := folder_emblem ++ name }

/-- One task (`Task` in `src/lib.rs` lines 41-48). -/
structure Task where
  label : String
  task_type : String
  command : String
  args : List String
deriving DecidableEq, Repr

/-- A task set (`Tasks` in `src/lib.rs` lines 50-54). -/
structure Tasks where
  version : String
  tasks : List Task
deriving DecidableEq, Repr

/-- A JSON value, for the extraneous (`#[serde(flatten)]`) sections. -/
inductive Json where
  | null
  | bool (b : Bool)
  | num (n : Int)
  | str (s : String)
  | arr (elems : List Json)
  | obj (fields : List (String × Json))

/-- The workspace document (`WorkspaceFile` in `src/lib.rs` lines 62-70):
folders, optional tasks, and the catch-all map of unrecognized top-level
keys. -/
structure WorkspaceFile where
  folders : List WorkspaceFolder
  tasks : Option Tasks
  other : List (String × Json)

/-- The CLI arguments of `src/lib.rs` (`Args`, lines 14-39). -/
structure Args where
  path : String
  exclude_current : Bool
  name : Option String
  update_task : Bool
deriving DecidableEq, Repr

/-- Function `args_to_vec` from `src/lib.rs` lines 130-142, with the source
order of the three `push`/`extend` steps kept. -/
def args_to_vec (args : Args) : List String :=
  let task_args : List String := []
  let task_args := match args.name with
    | some name => task_args ++ ["--name", name]
    | none => task_args
  let task_args := if args.exclude_current
    then task_args ++ ["--exclude-current"] else task_args
  task_args ++ ["--path", args.path]

/-- The fallback used when `env::current_exe` fails
(`PathBuf::from("workspace-manager")`). -/
def fallback_exe : FsPath :=
  ⟨false, [Component.normal (OsStr.utf8 "workspace-manager")]⟩

/-- Function `create_workspace_task` from `src/lib.rs` lines 144-157.  The
result of `env::current_exe()` is the explicit input `current_exe` (`none`
means the call failed, triggering the fallback). -/
def create_workspace_task (current_exe : Option FsPath) (args : Args) :
    Tasks :=
  { version := "2.0.0",
    tasks := [{ label := "Update Workspace", task_type := "process",
                command := (current_exe.getD fallback_exe).to_string_lossy,
                args := args_to_vec args }] }

/-- Function `merge_tasks` from `src/lib.rs` lines 115-128. -/
def merge_tasks (existing : Option Tasks) (new_task : Task) : Tasks :=
  let tasks := existing.getD { version := "2.0.0", tasks := [] }
  { tasks with tasks :=
      (tasks.tasks.filter (fun task => task.label != "Update Workspace")) ++
        [new_task] }

/-- The replacement task built inline in `src/lib.rs` lines 182-187 (no
fallback there: `env::current_exe()?`). -/
def updated_task (exe : FsPath) (args : Args) : Task :=
  { label := "Update Workspace", task_type := "process",
    command := exe.to_string_lossy, args := args_to_vec args }

/-- Outcome of looking for, reading and JSON-parsing the target
`.code-workspace` file. -/
inductive FileState (α : Type) where
  | absent
  | unreadable
  | unparsable
  | parsed (w : α)

/-- The read-and-merge step of `create_workspace`, `src/lib.rs` lines
166-196: start from `WorkspaceFile::default()`; when the file exists and
parses, take over `other` and `tasks`, and under the update flag replace
the maintenance task (erroring if `env::current_exe` fails) or create a
task set when none was loaded; when the file is absent, attach a fresh
task set; when it exists but cannot be read or parsed, silently keep the
default. -/
def merge_existing_file (current_exe : Option FsPath) (update_task : Bool)
    (args : Args) (fstate : FileState WorkspaceFile) :
    Except String WorkspaceFile :=
  let workspace : WorkspaceFile := { folders := [], tasks := none, other := [] }
  match fstate with
  | .parsed existing_workspace =>
    let w : WorkspaceFile := { workspace with
      other := existing_workspace.other, tasks := existing_workspace.tasks }
    if update_task then
      match w.tasks with
      | some tasks =>
        match current_exe with
        | some exe =>
          Except.ok { w with tasks := some { tasks with tasks :=
            (tasks.tasks.filter (fun t => t.label != "Update Workspace")) ++
              [updated_task exe args] } }
        | none => Except.error "current_exe failed"
      | none =>
        Except.ok { w with tasks := some (create_workspace_task current_exe args) }
    else Except.ok w
  | .absent =>
    Except.ok { workspace with
      tasks := some (create_workspace_task current_exe args) }
  | _ => Except.ok workspace

/-- Function `create_workspace` from `src/lib.rs` lines 159-213: the merge
step above, then the folder list rebuilt from scratch — the
current-directory entry unless excluded, then one entry per scanned
directory. -/
def create_workspace (current_dir : FsPath) (current_exe : Option FsPath)
    (fstate : FileState WorkspaceFile) (listing : List DirEntry)
    (scan_path : FsPath) (workspace_name : String)
    (exclude_current update_task : Bool) (args : Args) :
    Except String WorkspaceFile :=
  let base_path := current_dir
  match merge_existing_file current_exe update_task args fstate with
  | Except.error e => Except.error e
  | Except.ok workspace =>
    let folders₀ : List WorkspaceFolder :=
      if !exclude_current then
        [{ path := ".", name := current_emblem ++ workspace_name }]
      else []
    let dirs := scan_directories scan_path listing
    match dirs.mapM
        (fun dir => create_workspace_folder dir base_path scan_path) with
    | Except.error e => Except.error e
    | Except.ok folders =>
      Except.ok { workspace with folders := folders₀ ++ folders }

/-! ## The `src/main.rs` variant

`src/main.rs` is a self-contained binary that duplicates the library logic
with some differences: its `WorkspaceFile` has no catch-all field, its
update path replaces the whole task set, its folder builder uses
`strip_prefix` only, and its flag is `include_current`. -/

/-- The CLI arguments of `src/main.rs` (`Args`, lines 10-26). -/
structure ArgsM where
  path : String
  include_current : Bool
  name : Option String
  update_tasks : Bool
deriving DecidableEq, Repr

/-- The workspace document of `src/main.rs` (lines 57-62): no catch-all
field for unrecognized keys. -/
structure WorkspaceFileM where
  folders : List WorkspaceFolder
  tasks : Option Tasks
deriving DecidableEq, Repr

/-- The folder emblem of `src/main.rs` line 92 (a genuine emoji there). -/
def main_folder_emblem : String := "📦 "

/-- The current-directory emblem of `src/main.rs` line 150. -/
def main_current_emblem : String := "🏗️ "

/-- Function `create_workspace_folder` from `src/main.rs` lines 83-94:
`strip_prefix` (fallible), then the decorated name. -/
def create_workspace_folder_main (path base_path : FsPath) :
    Except String WorkspaceFolder :=
  match FsPath.stripPrefixComps path base_path with
  | none => Except.error "StripPrefixError"
  | some relative_path =>
    match path.file_name with
    | none => Except.error "Invalid folder name"
    | some n =>
      Except.ok { path := relative_path.to_string_lossy,
                  name := main_folder_emblem ++ n.to_string_lossy }

/-- Function `create_workspace_task` from `src/main.rs` lines 96-117. -/
def create_workspace_task_main (current_exe : Option FsPath) (args : ArgsM) :
    Tasks :=
  let current_exe := current_exe.getD fallback_exe
  let task_args : List String := []
  let task_args := match args.name with
    | some name => task_args ++ ["--name", name]
    | none => task_args
  let task_args := if args.include_current
    then task_args ++ ["--include-current"] else task_args
  let task_args := task_args ++ ["--path", args.path]
  { version := "2.0.0",
    tasks := [{ label := "Update Workspace", task_type := "process",
                command := current_exe.to_string_lossy,
                args := task_args }] }

/-- The load step of `main` from `src/main.rs` lines 132-143: a file that
exists but cannot be read aborts (`?`); one that cannot be parsed becomes
`WorkspaceFile::default()`; under the update flag the whole task set is
replaced; a missing file gets a fresh task set. -/
def main_load (current_exe : Option FsPath) (args : ArgsM)
    (fstate : FileState WorkspaceFileM) : Except String WorkspaceFileM :=
  match fstate with
  | FileState.absent =>
    Except.ok
      { folders := [],
        tasks := some (create_workspace_task_main current_exe args) }
  | FileState.unreadable => Except.error "failed to read workspace file"
  | FileState.unparsable =>
    let existing : WorkspaceFileM := { folders := [], tasks := none }
    Except.ok (if args.update_tasks then
      { existing with
          tasks := some (create_workspace_task_main current_exe args) }
    else existing)
  | FileState.parsed existing =>
    Except.ok (if args.update_tasks then
      { existing with
          tasks := some (create_workspace_task_main current_exe args) }
    else existing)

/-- The pipeline of `main` from `src/main.rs` lines 119-163, up to the
document that `fs::write` serializes: `base_path` is the canonicalized scan
path, `fstate` the state of the target file, `listing` the scan directory
listing.  After the load step the folder list is cleared and rebuilt. -/
def main_run (base_path : FsPath) (current_exe : Option FsPath)
    (fstate : FileState WorkspaceFileM) (listing : List DirEntry)
    (args : ArgsM) : Except String WorkspaceFileM :=
  let workspace_name := args.name.getD
    ((base_path.file_name.getD (OsStr.utf8 "")).to_string_lossy)
  match main_load current_exe args fstate with
  | Except.error e => Except.error e
  | Except.ok workspace =>
    let folders₀ : List WorkspaceFolder :=
      if args.include_current then
        [{ path := ".", name := main_current_emblem ++ workspace_name }]
      else []
    let dirs := scan_directories base_path listing
    match (dirs.filter (fun dir => !is_hidden dir)).mapM
        (fun dir => create_workspace_folder_main dir base_path) with
    | Except.error e => Except.error e
    | Except.ok folders =>
      Except.ok { workspace with folders := folders₀ ++ folders }

/-! ## Helper lemmas -/

/-- A path extended by a normal component has that component as file name. -/
lemma file_name_join_name (base : FsPath) (n : OsStr) :
    (FsPath.join_name base n).file_name = some n := by
  simp [FsPath.join_name, FsPath.file_name]

/-- Membership characterization of the scanner (shared helper). -/
lemma mem_scan_directories (base_path : FsPath) (listing : List DirEntry)
    (p : FsPath) :
    p ∈ scan_directories base_path listing ↔
      ∃ entry, entry ∈ listing ∧ p = FsPath.join_name base_path entry.name ∧
        entry.is_dir = true ∧ is_hidden p = false := by
  unfold scan_directories
  simp only [List.mem_map, List.mem_filter]
  constructor
  · rintro ⟨entry, ⟨hmem, hcond⟩, rfl⟩
    rw [Bool.and_eq_true, Bool.not_eq_true'] at hcond
    exact ⟨entry, hmem, rfl, hcond.1, hcond.2⟩
  · rintro ⟨entry, hmem, rfl, hdir, hhid⟩
    refine ⟨entry, ⟨hmem, ?_⟩, rfl⟩
    rw [Bool.and_eq_true, Bool.not_eq_true']
    exact ⟨hdir, hhid⟩

/-- On a strict descendant, the `pathdiff` loop returns exactly the suffix. -/
lemma diff_loop_descendant (bs suffix : List Component) :
    diff_loop [] (bs ++ suffix) bs = some suffix := by
  induction bs with
  | nil => cases suffix with
    | nil => rfl
    | cons a rest => rfl
  | cons b bs ih =>
    show diff_loop [] (b :: (bs ++ suffix)) (b :: bs) = some suffix
    rw [diff_loop, if_pos ⟨rfl, rfl⟩]
    exact ih

/-- On a descendant with matching absoluteness, `diff_paths` is exact. -/
lemma diff_paths_descendant (path base : FsPath) (suffix : List Component)
    (habs : path.absolute = base.absolute)
    (hcomp : path.components = base.components ++ suffix) :
    diff_paths path base = some ⟨false, suffix⟩ := by
  unfold diff_paths
  rw [if_neg (by rw [habs]; exact fun h => h rfl), hcomp,
    diff_loop_descendant]
  rfl

lemma isPrefixOf_append_self (bs suffix : List Component) :
    bs.isPrefixOf (bs ++ suffix) = true := by
  induction bs with
  | nil => cases suffix <;> rfl
  | cons b bs ih => simp [List.isPrefixOf, ih]

/-- Filtering out the maintenance label leaves nothing with that label. -/
lemma filter_ne_then_eq (l : List Task) :
    (l.filter (fun t => t.label != "Update Workspace")).filter
      (fun t => t.label == "Update Workspace") = [] := by
  induction l with
  | nil => rfl
  | cons t l ih =>
    by_cases h : t.label = "Update Workspace" <;>
      simp [List.filter_cons, h, ih]

/-- Filtering on the complement of the maintenance label is idempotent. -/
lemma filter_ne_idem (l : List Task) :
    (l.filter (fun t => t.label != "Update Workspace")).filter
      (fun t => t.label != "Update Workspace") =
      l.filter (fun t => t.label != "Update Workspace") := by
  induction l with
  | nil => rfl
  | cons t l ih =>
    by_cases h : t.label = "Update Workspace" <;>
      simp [List.filter_cons, h, ih]

/-- Unfolding of `create_workspace` once the merge step is known. -/
lemma create_workspace_eq (current_dir : FsPath) (current_exe : Option FsPath)
    (fstate : FileState WorkspaceFile) (listing : List DirEntry)
    (scan_path : FsPath) (workspace_name : String)
    (exclude_current update_task : Bool) (args : Args) (m : WorkspaceFile)
    (hm : merge_existing_file current_exe update_task args fstate =
      Except.ok m) :
    create_workspace current_dir current_exe fstate listing scan_path
        workspace_name exclude_current update_task args =
      match (scan_directories scan_path listing).mapM
          (fun dir => create_workspace_folder dir current_dir scan_path) with
      | Except.error e => Except.error e
      | Except.ok folders =>
        Except.ok { m with folders :=
          (if !exclude_current then
            [{ path := ".", name := current_emblem ++ workspace_name }]
          else []) ++ folders } := by
  unfold create_workspace
  rw [hm]

/-- Shape of a successful `create_workspace` run. -/
lemma create_workspace_ok (current_dir : FsPath) (current_exe : Option FsPath)
    (fstate : FileState WorkspaceFile) (listing : List DirEntry)
    (scan_path : FsPath) (workspace_name : String)
    (exclude_current update_task : Bool) (args : Args) (m w : WorkspaceFile)
    (hm : merge_existing_file current_exe update_task args fstate =
      Except.ok m)
    (hok : create_workspace current_dir current_exe fstate listing scan_path
        workspace_name exclude_current update_task args = Except.ok w) :
    ∃ folders, (scan_directories scan_path listing).mapM
        (fun dir => create_workspace_folder dir current_dir scan_path) =
          Except.ok folders ∧
      w = { m with folders :=
        (if !exclude_current then
          [{ path := ".", name := current_emblem ++ workspace_name }]
        else []) ++ folders } := by
  rw [create_workspace_eq current_dir current_exe fstate listing scan_path
    workspace_name exclude_current update_task args m hm] at hok
  cases hmap : (scan_directories scan_path listing).mapM
      (fun dir => create_workspace_folder dir current_dir scan_path) with
  | error e => rw [hmap] at hok; exact absurd hok (by simp)
  | ok folders =>
    rw [hmap] at hok
    exact ⟨folders, rfl, (by injection hok with h; exact h.symm)⟩

/-- A successful `create_workspace` run has a successful merge step. -/
lemma create_workspace_ok_merge (current_dir : FsPath)
    (current_exe : Option FsPath) (fstate : FileState WorkspaceFile)
    (listing : List DirEntry) (scan_path : FsPath) (workspace_name : String)
    (exclude_current update_task : Bool) (args : Args) (w : WorkspaceFile)
    (hok : create_workspace current_dir current_exe fstate listing scan_path
        workspace_name exclude_current update_task args = Except.ok w) :
    ∃ m, merge_existing_file current_exe update_task args fstate =
      Except.ok m := by
  unfold create_workspace at hok
  cases hm : merge_existing_file current_exe update_task args fstate with
  | error e => rw [hm] at hok; exact absurd hok (by simp)
  | ok m => exact ⟨m, rfl⟩

/-- Unfolding of `main_run` once the load step is known. -/
lemma main_run_eq (base_path : FsPath) (current_exe : Option FsPath)
    (fstate : FileState WorkspaceFileM) (listing : List DirEntry)
    (args : ArgsM) (m : WorkspaceFileM)
    (hm : main_load current_exe args fstate = Except.ok m) :
    main_run base_path current_exe fstate listing args =
      match ((scan_directories base_path listing).filter
          (fun dir => !is_hidden dir)).mapM
          (fun dir => create_workspace_folder_main dir base_path) with
      | Except.error e => Except.error e
      | Except.ok folders =>
        Except.ok { m with folders :=
          (if args.include_current then
            [{ path := ".", name := main_current_emblem ++ (args.name.getD
              ((base_path.file_name.getD (OsStr.utf8 "")).to_string_lossy)) }]
          else []) ++ folders } := by
  unfold main_run
  rw [hm]

/-- Re-loading a document whose task set is already the replacement (or
with the update flag unset) is the identity. -/
lemma main_load_parsed_self (current_exe : Option FsPath) (args : ArgsM)
    (x : WorkspaceFileM)
    (h : args.update_tasks = true →
      x.tasks = some (create_workspace_task_main current_exe args)) :
    main_load current_exe args (FileState.parsed x) = Except.ok x := by
  unfold main_load
  cases hupd : args.update_tasks with
  | false => simp [hupd]
  | true => rw [← h hupd]; rfl

/-- Shape of a successful `main_run`: folders are fully rebuilt, and under
the update flag the task set is the freshly built one. -/
lemma main_run_ok_shape (base_path : FsPath) (current_exe : Option FsPath)
    (fstate : FileState WorkspaceFileM) (listing : List DirEntry)
    (args : ArgsM) (w : WorkspaceFileM)
    (h : main_run base_path current_exe fstate listing args = Except.ok w) :
    ∃ folders, ((scan_directories base_path listing).filter
        (fun dir => !is_hidden dir)).mapM
        (fun dir => create_workspace_folder_main dir base_path) =
          Except.ok folders ∧
      w.folders = (if args.include_current then
          [{ path := ".", name := main_current_emblem ++ (args.name.getD
            ((base_path.file_name.getD (OsStr.utf8 "")).to_string_lossy)) }]
        else []) ++ folders ∧
      (args.update_tasks = true →
        w.tasks = some (create_workspace_task_main current_exe args)) := by
  have step : ∀ m : WorkspaceFileM,
      main_load current_exe args fstate = Except.ok m →
      (args.update_tasks = true →
        m.tasks = some (create_workspace_task_main current_exe args)) →
      ∃ folders, ((scan_directories base_path listing).filter
          (fun dir => !is_hidden dir)).mapM
          (fun dir => create_workspace_folder_main dir base_path) =
            Except.ok folders ∧
        w.folders = (if args.include_current then
            [{ path := ".", name := main_current_emblem ++ (args.name.getD
              ((base_path.file_name.getD (OsStr.utf8 "")).to_string_lossy)) }]
          else []) ++ folders ∧
        (args.update_tasks = true →
          w.tasks = some (create_workspace_task_main current_exe args)) := by
    intro m hm htask
    rw [main_run_eq base_path current_exe fstate listing args m hm] at h
    cases hmap : ((scan_directories base_path listing).filter
        (fun dir => !is_hidden dir)).mapM
        (fun dir => create_workspace_folder_main dir base_path) with
    | error e => rw [hmap] at h; exact absurd h (by simp)
    | ok folders =>
      rw [hmap] at h
      injection h with h
      subst h
      exact ⟨folders, rfl, rfl, htask⟩
  cases fstate with
  | unreadable =>
    exact absurd h (by simp [main_run, main_load])
  | absent => exact step _ rfl (fun _ => rfl)
  | unparsable =>
    refine step (if args.update_tasks then
        { folders := [],
          tasks := some (create_workspace_task_main current_exe args) }
      else { folders := [], tasks := none }) rfl ?_
    intro hu
    simp [hu]
  | parsed ex =>
    refine step (if args.update_tasks then
        { ex with tasks := some (create_workspace_task_main current_exe args) }
      else ex) rfl ?_
    intro hu
    simp [hu]

/-! ## Claim theorems -/

/-- C6: scanning a directory returns exactly the set of its immediate
children that are directories and are not hidden; hidden entries and
non-directories are excluded, and the scan does not recurse (every result
is `base_path` extended by one listing entry's name). -/
theorem scan_directories_spec (base_path : FsPath) (listing : List DirEntry)
    (p : FsPath) :
    p ∈ scan_directories base_path listing ↔
      ∃ entry, entry ∈ listing ∧ p = FsPath.join_name base_path entry.name ∧
        entry.is_dir = true ∧ is_hidden p = false :=
  mem_scan_directories base_path listing p

/-- C10: on a path with no obtainable final name component, or one whose
final component is not valid UTF-8, `is_hidden` returns `false`;
consequently the scanner treats such a directory as not hidden and includes
it in the scan results rather than filtering it out. -/
theorem is_hidden_degenerate (p base_path : FsPath)
    (listing : List DirEntry) (entry : DirEntry) :
    ((p.file_name = none ∨ ∃ bs, p.file_name = some (OsStr.nonUtf8 bs)) →
        is_hidden p = false) ∧
      (entry ∈ listing → entry.is_dir = true →
        (∃ bs, entry.name = OsStr.nonUtf8 bs) →
        FsPath.join_name base_path entry.name ∈
          scan_directories base_path listing) := by
  constructor
  · rintro (hnone | ⟨bs, hbytes⟩)
    · simp [is_hidden, hnone]
    · simp [is_hidden, hbytes, OsStr.to_str]
  · rintro hmem hdir ⟨bs, hbytes⟩
    rw [mem_scan_directories]
    refine ⟨entry, hmem, rfl, hdir, ?_⟩
    simp [is_hidden, file_name_join_name, hbytes, OsStr.to_str]

/-- Closed instance of `is_hidden_degenerate`: a root-like path (no final
name) and a non-UTF-8-named directory entry. -/
theorem is_hidden_degenerate_witness :
    is_hidden ⟨true, []⟩ = false ∧
      FsPath.join_name ⟨true, []⟩ (OsStr.nonUtf8 [200]) ∈
        scan_directories ⟨true, []⟩ [⟨OsStr.nonUtf8 [200], true⟩] := by
  refine ⟨?_, ?_⟩
  · exact (is_hidden_degenerate ⟨true, []⟩ ⟨true, []⟩ [] ⟨OsStr.utf8 "x", true⟩).1
      (Or.inl (by rfl))
  · exact (is_hidden_degenerate ⟨true, []⟩ ⟨true, []⟩
      [⟨OsStr.nonUtf8 [200], true⟩] ⟨OsStr.nonUtf8 [200], true⟩).2
      (by simp) rfl ⟨[200], rfl⟩

/-- C5: for `P` a strict descendant of the workspace root `R` (any scan
path `S`), the built entry's path is the exact relative path from `R` to
`P` and its name the emblem-decorated final segment of `P`; building fails
when `P` has no final name component, and when the relative-path
computation fails. -/
theorem create_workspace_folder_spec (path base_path scan_path : FsPath) :
    (∀ suffix n, path.absolute = base_path.absolute →
        path.components = base_path.components ++ suffix →
        suffix.getLast? = some (Component.normal n) →
        create_workspace_folder path base_path scan_path =
          Except.ok { path := FsPath.to_string_lossy ⟨false, suffix⟩,
                      name := folder_emblem ++ n.to_string_lossy }) ∧
      (path.file_name = none →
        create_workspace_folder path base_path scan_path =
          Except.error "Invalid folder name") ∧
      (path ≠ scan_path → diff_paths path base_path = none →
        ∃ e, create_workspace_folder path base_path scan_path =
          Except.error e) := by
  refine ⟨?_, ?_, ?_⟩
  · intro suffix n habs hcomp hlast
    have hsuffix_ne : suffix ≠ [] := by
      intro h; rw [h] at hlast; exact Option.noConfusion hlast
    have hfile : path.file_name = some n := by
      unfold FsPath.file_name
      rw [hcomp, List.getLast?_append_of_ne_nil _ hsuffix_ne, hlast]
    have hpre : base_path.components.isPrefixOf path.components = true := by
      rw [hcomp]; exact isPrefixOf_append_self _ _
    by_cases hps : path = scan_path
    · subst hps
      have hstrip : FsPath.stripPrefixComps path base_path =
          some ⟨false, suffix⟩ := by
        unfold FsPath.stripPrefixComps
        rw [if_pos ⟨habs.symm, hpre⟩, hcomp, List.drop_left]
      simp [create_workspace_folder, hfile, hstrip]
    · have hdiff := diff_paths_descendant path base_path suffix habs hcomp
      simp [create_workspace_folder, hfile, hps, hdiff]
  · intro hnone
    simp [create_workspace_folder, hnone]
  · intro hne hdiff
    cases hfile : path.file_name with
    | none => exact ⟨"Invalid folder name", by
        simp [create_workspace_folder, hfile]⟩
    | some n => exact ⟨"Failed to calculate relative path", by
        simp [create_workspace_folder, hfile, hne, hdiff]⟩

/-- Closed instance of `create_workspace_folder_spec`: building the entry
for `/home/sub` against root `/home` yields relative path `sub` with the
decorated name. -/
theorem create_workspace_folder_spec_witness :
    create_workspace_folder
        ⟨true, [Component.normal (OsStr.utf8 "home"),
                Component.normal (OsStr.utf8 "sub")]⟩
        ⟨true, [Component.normal (OsStr.utf8 "home")]⟩
        ⟨true, [Component.normal (OsStr.utf8 "home")]⟩ =
      Except.ok { path := "sub", name := folder_emblem ++ "sub" } := by
  have h := (create_workspace_folder_spec
      ⟨true, [Component.normal (OsStr.utf8 "home"),
              Component.normal (OsStr.utf8 "sub")]⟩
      ⟨true, [Component.normal (OsStr.utf8 "home")]⟩
      ⟨true, [Component.normal (OsStr.utf8 "home")]⟩).1
    [Component.normal (OsStr.utf8 "sub")] (OsStr.utf8 "sub") rfl rfl rfl
  simpa [FsPath.to_string_lossy, Component.render, OsStr.to_string_lossy,
    String.intercalate] using h

/-- C9: the maintenance task's argument list is built in a fixed, stable
order — the optional custom-name flag with its value first, then the
optional exclude-current-directory flag, then the scan-path flag with its
value — hence two runs with identical configuration produce identical
lists. -/
theorem args_to_vec_fixed_order (args : Args) :
    args_to_vec args =
      (match args.name with
        | some name => ["--name", name]
        | none => []) ++
      (if args.exclude_current then ["--exclude-current"] else []) ++
      ["--path", args.path] := by
  unfold args_to_vec
  cases hn : args.name <;> cases hx : args.exclude_current <;> simp [hn, hx]

/-- C1: merging with the update flag set, over an existing task set that
contains an "Update Workspace" task plus tasks with other labels, yields a
task set whose only "Update Workspace" entry is the newly built task, with
every task of a different label kept unchanged and in order. -/
theorem update_replaces_maintenance_task (current_dir : FsPath)
    (current_exe : Option FsPath) (exe : FsPath)
    (fstate : FileState WorkspaceFile) (listing : List DirEntry)
    (scan_path : FsPath) (workspace_name : String) (exclude_current : Bool)
    (args : Args) (ex : WorkspaceFile) (ts : Tasks) (w : WorkspaceFile)
    (hexe : current_exe = some exe)
    (hfs : fstate = FileState.parsed ex)
    (hts : ex.tasks = some ts)
    (hasUW : ∃ t ∈ ts.tasks, t.label = "Update Workspace")
    (hasOther : ∃ t ∈ ts.tasks, t.label ≠ "Update Workspace")
    (hok : create_workspace current_dir current_exe fstate listing scan_path
        workspace_name exclude_current true args = Except.ok w) :
    ∃ ts', w.tasks = some ts' ∧
      ts'.tasks.filter (fun t => t.label == "Update Workspace") =
        [updated_task exe args] ∧
      ts'.tasks.filter (fun t => t.label != "Update Workspace") =
        ts.tasks.filter (fun t => t.label != "Update Workspace") := by
  subst hexe hfs
  have hmerge : merge_existing_file (some exe) true args
      (FileState.parsed ex) = Except.ok
        { folders := [],
          tasks := some
            { version := ts.version,
              tasks :=
                ts.tasks.filter (fun t => t.label != "Update Workspace") ++
                  [updated_task exe args] },
          other := ex.other } := by
    unfold merge_existing_file
    simp [hts]
  obtain ⟨folders, hmap, rfl⟩ := create_workspace_ok current_dir (some exe)
    (FileState.parsed ex) listing scan_path workspace_name exclude_current
    true args _ _ hmerge hok
  refine ⟨_, rfl, ?_, ?_⟩
  · rw [List.filter_append, filter_ne_then_eq]
    simp [updated_task]
  · rw [List.filter_append, filter_ne_idem]
    simp [updated_task]

/-- Closed instance of `update_replaces_maintenance_task`: a task set with
an old maintenance task and a "Build" task; the update keeps "Build" and
replaces the maintenance task. -/
theorem update_replaces_maintenance_task_witness :
    ∃ ts', (WorkspaceFile.mk []
        (some ⟨"2.0.0", [⟨"Build", "shell", "make", ["all"]⟩,
          updated_task ⟨true, [Component.normal (OsStr.utf8 "exe")]⟩
            ⟨".", false, none, true⟩]⟩) []).tasks = some ts' ∧
      ts'.tasks.filter (fun t => t.label == "Update Workspace") =
        [updated_task ⟨true, [Component.normal (OsStr.utf8 "exe")]⟩
          ⟨".", false, none, true⟩] ∧
      ts'.tasks.filter (fun t => t.label != "Update Workspace") =
        (Tasks.mk "2.0.0"
          [⟨"Update Workspace", "process", "old", []⟩,
           ⟨"Build", "shell", "make", ["all"]⟩]).tasks.filter
          (fun t => t.label != "Update Workspace") :=
  update_replaces_maintenance_task ⟨true, []⟩
    (some ⟨true, [Component.normal (OsStr.utf8 "exe")]⟩)
    ⟨true, [Component.normal (OsStr.utf8 "exe")]⟩
    (FileState.parsed (WorkspaceFile.mk []
      (some (Tasks.mk "2.0.0"
        [⟨"Update Workspace", "process", "old", []⟩,
         ⟨"Build", "shell", "make", ["all"]⟩])) []))
    [] ⟨true, []⟩ "ws" true ⟨".", false, none, true⟩
    (WorkspaceFile.mk []
      (some (Tasks.mk "2.0.0"
        [⟨"Update Workspace", "process", "old", []⟩,
         ⟨"Build", "shell", "make", ["all"]⟩])) [])
    (Tasks.mk "2.0.0"
      [⟨"Update Workspace", "process", "old", []⟩,
       ⟨"Build", "shell", "make", ["all"]⟩])
    (WorkspaceFile.mk []
      (some ⟨"2.0.0", [⟨"Build", "shell", "make", ["all"]⟩,
        updated_task ⟨true, [Component.normal (OsStr.utf8 "exe")]⟩
          ⟨".", false, none, true⟩]⟩) [])
    rfl rfl rfl
    ⟨⟨"Update Workspace", "process", "old", []⟩, by simp, rfl⟩
    ⟨⟨"Build", "shell", "make", ["all"]⟩, by simp, by decide⟩
    rfl

/-- C2: an existing workspace file that parses keeps its unrecognized
top-level keys unchanged through a run without the task-update flag. -/
theorem extraneous_keys_preserved (current_dir : FsPath)
    (current_exe : Option FsPath) (fstate : FileState WorkspaceFile)
    (listing : List DirEntry) (scan_path : FsPath) (workspace_name : String)
    (exclude_current : Bool) (args : Args) (ex w : WorkspaceFile)
    (hfs : fstate = FileState.parsed ex)
    (hok : create_workspace current_dir current_exe fstate listing scan_path
        workspace_name exclude_current false args = Except.ok w) :
    w.other = ex.other := by
  subst hfs
  have hmerge : merge_existing_file current_exe false args
      (FileState.parsed ex) = Except.ok
        { folders := [], tasks := ex.tasks, other := ex.other } := rfl
  obtain ⟨folders, hmap, rfl⟩ := create_workspace_ok current_dir current_exe
    (FileState.parsed ex) listing scan_path workspace_name exclude_current
    false args _ _ hmerge hok
  rfl

/-- Closed instance of `extraneous_keys_preserved`: the `"settings"` key of
the loaded document is present unchanged in the produced document. -/
theorem extraneous_keys_preserved_witness :
    (WorkspaceFile.mk [] none [("settings", Json.obj [])]).other =
      [("settings", Json.obj [])] :=
  extraneous_keys_preserved ⟨true, []⟩ none
    (FileState.parsed (WorkspaceFile.mk [] none [("settings", Json.obj [])]))
    [] ⟨true, []⟩ "ws" true ⟨".", false, none, false⟩
    (WorkspaceFile.mk [] none [("settings", Json.obj [])])
    (WorkspaceFile.mk [] none [("settings", Json.obj [])])
    rfl rfl

/-- C3 (counterexample): on a target file that fails to parse, the run
succeeds but the produced document's tasks section is `none` — not a newly
built task set containing the maintenance task, as the claim states. -/
theorem parse_failure_counterexample :
    (create_workspace ⟨true, []⟩
        (some ⟨true, [Component.normal (OsStr.utf8 "exe")]⟩)
        FileState.unparsable [] ⟨true, []⟩ "ws" true false
        ⟨".", false, none, false⟩).map (fun w => w.tasks) =
      Except.ok none := rfl

/-- C3 (amended): on a target file that fails to parse, the run does not
fail — it produces a document whose folder list holds only the newly
scanned entries (after the optional current-directory entry) and whose
extraneous map is empty, but whose tasks section is left absent rather
than a newly built task set. -/
theorem parse_failure_fresh_document (current_dir : FsPath)
    (current_exe : Option FsPath) (fstate : FileState WorkspaceFile)
    (listing : List DirEntry) (scan_path : FsPath) (workspace_name : String)
    (exclude_current update_task : Bool) (args : Args)
    (folders : List WorkspaceFolder)
    (hfs : fstate = FileState.unparsable)
    (hmap : (scan_directories scan_path listing).mapM
      (fun dir => create_workspace_folder dir current_dir scan_path) =
        Except.ok folders) :
    create_workspace current_dir current_exe fstate listing scan_path
        workspace_name exclude_current update_task args =
      Except.ok
        { folders := (if !exclude_current then
              [{ path := ".", name := current_emblem ++ workspace_name }]
            else []) ++ folders,
          tasks := none, other := [] } := by
  subst hfs
  rw [create_workspace_eq current_dir current_exe FileState.unparsable
    listing scan_path workspace_name exclude_current update_task args
    { folders := [], tasks := none, other := [] } rfl, hmap]

/-- Closed instance of `parse_failure_fresh_document`. -/
theorem parse_failure_fresh_document_witness :
    create_workspace ⟨true, []⟩ none FileState.unparsable [] ⟨true, []⟩ "ws"
        false true ⟨".", false, none, true⟩ =
      Except.ok
        { folders := (if !false then
              [{ path := ".", name := current_emblem ++ "ws" }]
            else []) ++ [],
          tasks := none, other := [] } :=
  parse_failure_fresh_document ⟨true, []⟩ none FileState.unparsable []
    ⟨true, []⟩ "ws" false true ⟨".", false, none, true⟩ [] rfl rfl

/-- C4 (counterexample): a file that exists and parses with no task set,
merged without the update flag, yields a document whose tasks section is
still `none` — no new task set is created, contrary to the claim. -/
theorem missing_taskset_counterexample :
    (create_workspace ⟨true, []⟩
        (some ⟨true, [Component.normal (OsStr.utf8 "exe")]⟩)
        (FileState.parsed { folders := [], tasks := none, other := [] })
        [] ⟨true, []⟩ "ws" true false ⟨".", false, none, false⟩).map
      (fun w => w.tasks) = Except.ok none := rfl

/-- C4 (amended): when the file exists and parses, the merger creates a
new task set for a missing one only when the update flag is set; with the
flag unset the loaded tasks value is kept exactly — absent stays absent
and an existing task set is kept unchanged. -/
theorem taskset_creation_policy (current_dir : FsPath)
    (current_exe : Option FsPath) (fstate : FileState WorkspaceFile)
    (listing : List DirEntry) (scan_path : FsPath) (workspace_name : String)
    (exclude_current : Bool) (args : Args) (ex : WorkspaceFile)
    (hfs : fstate = FileState.parsed ex) :
    (∀ w, create_workspace current_dir current_exe fstate listing scan_path
        workspace_name exclude_current false args = Except.ok w →
      w.tasks = ex.tasks) ∧
    (∀ w, ex.tasks = none →
      create_workspace current_dir current_exe fstate listing scan_path
        workspace_name exclude_current true args = Except.ok w →
      w.tasks = some (create_workspace_task current_exe args)) := by
  subst hfs
  constructor
  · intro w hok
    have hmerge : merge_existing_file current_exe false args
        (FileState.parsed ex) = Except.ok
          { folders := [], tasks := ex.tasks, other := ex.other } := rfl
    obtain ⟨folders, hmap, rfl⟩ := create_workspace_ok current_dir
      current_exe (FileState.parsed ex) listing scan_path workspace_name
      exclude_current false args _ _ hmerge hok
    rfl
  · intro w hnone hok
    have hmerge : merge_existing_file current_exe true args
        (FileState.parsed ex) = Except.ok
          { folders := [],
            tasks := some (create_workspace_task current_exe args),
            other := ex.other } := by
      unfold merge_existing_file
      simp [hnone]
    obtain ⟨folders, hmap, rfl⟩ := create_workspace_ok current_dir
      current_exe (FileState.parsed ex) listing scan_path workspace_name
      exclude_current true args _ _ hmerge hok
    rfl

/-- Closed instance of `taskset_creation_policy`: an existing task set is
kept without the update flag; a missing one is created under it. -/
theorem taskset_creation_policy_witness :
    (WorkspaceFile.mk [] (some ⟨"2.0.0", []⟩) []).tasks =
        some ⟨"2.0.0", []⟩ ∧
      (WorkspaceFile.mk []
          (some (create_workspace_task none ⟨".", false, none, true⟩))
          []).tasks =
        some (create_workspace_task none ⟨".", false, none, true⟩) := by
  constructor
  · exact (taskset_creation_policy ⟨true, []⟩ none
      (FileState.parsed (WorkspaceFile.mk [] (some ⟨"2.0.0", []⟩) []))
      [] ⟨true, []⟩ "ws" true ⟨".", false, none, false⟩
      (WorkspaceFile.mk [] (some ⟨"2.0.0", []⟩) []) rfl).1
      (WorkspaceFile.mk [] (some ⟨"2.0.0", []⟩) []) rfl
  · exact (taskset_creation_policy ⟨true, []⟩ none
      (FileState.parsed (WorkspaceFile.mk [] none []))
      [] ⟨true, []⟩ "ws" true ⟨".", false, none, true⟩
      (WorkspaceFile.mk [] none []) rfl).2
      (WorkspaceFile.mk []
        (some (create_workspace_task none ⟨".", false, none, true⟩)) [])
      rfl rfl

/-- C8: in every run the folder list of the output document is rebuilt from
scratch: the current-directory entry exactly when inclusion is requested,
then one entry per scanned subdirectory in scan order; nothing from the
loaded file's folder list survives. -/
theorem folders_rebuilt_each_run (current_dir : FsPath)
    (current_exe : Option FsPath) (fstate : FileState WorkspaceFile)
    (listing : List DirEntry) (scan_path : FsPath) (workspace_name : String)
    (exclude_current update_task : Bool) (args : Args) (w : WorkspaceFile)
    (folders : List WorkspaceFolder)
    (hok : create_workspace current_dir current_exe fstate listing scan_path
        workspace_name exclude_current update_task args = Except.ok w)
    (hmap : (scan_directories scan_path listing).mapM
      (fun dir => create_workspace_folder dir current_dir scan_path) =
        Except.ok folders) :
    w.folders = (if exclude_current then [] else
        [{ path := ".", name := current_emblem ++ workspace_name }]) ++
      folders := by
  obtain ⟨m, hm⟩ := create_workspace_ok_merge current_dir current_exe fstate
    listing scan_path workspace_name exclude_current update_task args w hok
  obtain ⟨folders', hmap', rfl⟩ := create_workspace_ok current_dir
    current_exe fstate listing scan_path workspace_name exclude_current
    update_task args _ _ hm hok
  rw [hmap] at hmap'
  injection hmap' with h
  subst h
  cases exclude_current <;> rfl

/-- Closed instance of `folders_rebuilt_each_run`: scanning one directory
`sub` with the current entry included. -/
theorem folders_rebuilt_each_run_witness :
    (WorkspaceFile.mk
        [{ path := ".", name := current_emblem ++ "ws" },
         { path := "sub", name := folder_emblem ++ "sub" }]
        (some (create_workspace_task none ⟨".", false, none, false⟩))
        []).folders =
      (if false then [] else
        [{ path := ".", name := current_emblem ++ "ws" }]) ++
      [{ path := "sub", name := folder_emblem ++ "sub" }] :=
  folders_rebuilt_each_run ⟨true, [Component.normal (OsStr.utf8 "home")]⟩
    none FileState.absent [⟨OsStr.utf8 "sub", true⟩]
    ⟨true, [Component.normal (OsStr.utf8 "home")]⟩ "ws" false false
    ⟨".", false, none, false⟩
    (WorkspaceFile.mk
      [{ path := ".", name := current_emblem ++ "ws" },
       { path := "sub", name := folder_emblem ++ "sub" }]
      (some (create_workspace_task none ⟨".", false, none, false⟩)) [])
    [{ path := "sub", name := folder_emblem ++ "sub" }]
    (by rfl) (by rfl)

/-- C7: two consecutive runs with identical arguments and an unchanged
environment, where the second run loads the document written by the first,
produce the same output document (hence byte-identical serialized files). -/
theorem consecutive_runs_identical (base_path : FsPath)
    (current_exe : Option FsPath) (fstate : FileState WorkspaceFileM)
    (listing : List DirEntry) (args : ArgsM) (w : WorkspaceFileM)
    (h1 : main_run base_path current_exe fstate listing args = Except.ok w) :
    main_run base_path current_exe (FileState.parsed w) listing args =
      Except.ok w := by
  obtain ⟨folders, hmap, hfold, htask⟩ :=
    main_run_ok_shape base_path current_exe fstate listing args w h1
  rw [main_run_eq base_path current_exe (FileState.parsed w) listing args w
    (main_load_parsed_self current_exe args w htask), hmap]
  cases w with
  | mk wf wt =>
    simp only at hfold
    rw [hfold]

/-- Closed instance of `consecutive_runs_identical`: the second run over
the document the first run produced from an absent file returns it
unchanged. -/
theorem consecutive_runs_identical_witness :
    main_run ⟨true, [Component.normal (OsStr.utf8 "home")]⟩ none
        (FileState.parsed (WorkspaceFileM.mk []
          (some (Tasks.mk "2.0.0"
            [Task.mk "Update Workspace" "process" "workspace-manager"
              ["--path", "."]]))))
        [] ⟨".", false, none, false⟩ =
      Except.ok (WorkspaceFileM.mk []
        (some (Tasks.mk "2.0.0"
          [Task.mk "Update Workspace" "process" "workspace-manager"
            ["--path", "."]]))) :=
  consecutive_runs_identical ⟨true, [Component.normal (OsStr.utf8 "home")]⟩
    none FileState.absent [] ⟨".", false, none, false⟩
    (WorkspaceFileM.mk []
      (some (Tasks.mk "2.0.0"
        [Task.mk "Update Workspace" "process" "workspace-manager"
          ["--path", "."]])))
    rfl

end WorkspaceManager
